import Mathlib

/-! Shallow embedding of the jnd_vps ingestion pipeline: the lottery analyzer
(enrichment), the omission engine, the prediction verifier, the draw writer,
the issue tracker, the validators and the source parsers, together with the
theorems that settle the specification claims. Numeric draw values (digits,
sums, counters) are carried as `Int`/`Nat` mirroring the JavaScript `number`
values the pipeline feeds them; all modelled code paths only ever see the
nonnegative decimal values the upstream feeds produce. -/

namespace Jnd

/-- Split a character list at every character satisfying `P`, keeping empty
groups, as JS `String.prototype.split` does with a single-character (or
character-class) separator. Structural recursion, so it evaluates inside the
kernel. -/
def splitOnPred (P : Char → Bool) : List Char → List (List Char)
  | [] => [[]]
  | c :: rest =>
    match splitOnPred P rest with
    | [] => [[]]
    | r :: rs => if P c then [] :: r :: rs else (c :: r) :: rs

/-- JS `str.split(sep)` for a one-character separator, on character lists. -/
def splitOnChar (sep : Char) (cs : List Char) : List (List Char) :=
  splitOnPred (fun c => c == sep) cs

/-- JS `str.split(sep)` for a one-character separator, producing strings. -/
def splitString (sep : Char) (s : String) : List String :=
  (splitOnChar sep s.toList).map (fun cs => String.mk cs)

/-- JS `String.prototype.trim`: drop leading and trailing whitespace. -/
def trimChars (cs : List Char) : List Char :=
  ((cs.dropWhile Char.isWhitespace).reverse.dropWhile Char.isWhitespace).reverse

/-- JavaScript `parseInt(str)` (radix 10): trim, optional sign, then the
longest leading run of decimal digits; `none` models the `NaN` result.
`parseInt` never throws, so the model is a total function. -/
def parseIntJS (s : String) : Option Int :=
  let cs := trimChars s.toList
  let core : List Char → Option Int := fun ds =>
    let run := ds.takeWhile Char.isDigit
    if run.isEmpty then none
    else some (run.foldl (fun acc c => 10 * acc + (c.toNat - '0'.toNat : Int)) 0)
  match cs with
  | '-' :: rest => (core rest).map (fun n => -n)
  | '+' :: rest => core rest
  | _ => core cs

/-- The `parseInt` applications of the analyzer and validator, whose inputs are
always all-digit strings once the format guards have passed; the JS `NaN` of a
failed parse is defaulted to 0, a value those guarded paths never observe. -/
def parseIntD (s : String) : Int :=
  (parseIntJS s).getD 0

/-- JavaScript `String(n).padStart(2, '0')` applied to a decimal rendering. -/
def padTwo (s : String) : String :=
  if s.length < 2 then "0" ++ s else s

/-! ## Lottery analyzer (src/unnamed/part_004, helpers/lottery-analyzer) -/

/-- Ascending insertion into a sorted list, for `sortInts`. -/
def orderedInsert (x : Int) : List Int → List Int
  | [] => [x]
  | y :: ys => if x ≤ y then x :: y :: ys else y :: orderedInsert x ys

/-- Ascending insertion sort: the model of the analyzer's
`[...numbers].sort((x, y) => x - y)`. -/
def sortInts : List Int → List Int
  | [] => []
  | x :: xs => orderedInsert x (sortInts xs)

/-- Result of `analyzeSumValue`: the sum-derived attributes. -/
structure SumAnalysis where
  isDa : Bool
  isXiao : Bool
  isDan : Bool
  isShuang : Bool
  isJiDa : Bool
  isJiXiao : Bool
  combination : String
  isXiaoBian : Bool
  isZhong : Bool
  isDaBian : Bool
  isBian : Bool
deriving Repr, DecidableEq

/-- Result of `analyzePattern`: the number-form attributes. -/
structure PatternAnalysis where
  isBaozi : Bool
  isDuizi : Bool
  isShunzi : Bool
  isZaliu : Bool
deriving Repr, DecidableEq

/-- Result of `analyzeLongHuHe`: the first-versus-third digit comparison. -/
structure LongHuHeAnalysis where
  isLong : Bool
  isHu : Bool
  isHe : Bool
deriving Repr, DecidableEq

/-- Full result of `analyzeFullLotteryData`. -/
structure LotteryAnalysis where
  sum : SumAnalysis
  pattern : PatternAnalysis
  longHuHe : LongHuHeAnalysis
  types : List String
deriving Repr, DecidableEq

/-- `analyzeSumValue` of the analyzer: the sum-derived attributes. -/
def analyzeSumValue (sum : Int) : SumAnalysis :=
  let isDa := decide (sum ≥ 14)
  let isXiao := decide (sum ≤ 13)
  let isDan := decide (sum % 2 = 1)
  let isShuang := decide (sum % 2 = 0)
  let isJiDa := decide (sum ≥ 22)
  let isJiXiao := decide (sum ≤ 5)
  let isXiaoBian := decide (sum ≥ 0) && decide (sum ≤ 9)
  let isZhong := decide (sum ≥ 10) && decide (sum ≤ 17)
  let isDaBian := decide (sum ≥ 18) && decide (sum ≤ 27)
  let isBian := isXiaoBian || isDaBian
  let combination :=
    if isDa && isDan then "大单"
    else if isXiao && isDan then "小单"
    else if isDa && isShuang then "大双"
    else "小双"
  { isDa := isDa, isXiao := isXiao, isDan := isDan, isShuang := isShuang,
    isJiDa := isJiDa, isJiXiao := isJiXiao, combination := combination,
    isXiaoBian := isXiaoBian, isZhong := isZhong, isDaBian := isDaBian,
    isBian := isBian }

/-- `analyzePattern` of the analyzer, on the destructured `[a, b, c]` shape the
pipeline always hands it (parsed from a validated `"a+b+c"` string). -/
def analyzePattern (numbers : List Int) : PatternAnalysis :=
  match numbers with
  | [a, b, c] =>
    let isBaozi := a == b && b == c
    let isDuizi := !isBaozi && (a == b || b == c || a == c)
    let sorted := sortInts [a, b, c]
    let isShunzi := !isBaozi && !isDuizi &&
      (sorted.getD 1 0 == sorted.getD 0 0 + 1 && sorted.getD 2 0 == sorted.getD 1 0 + 1)
    let isZaliu := !isBaozi && !isDuizi && !isShunzi
    { isBaozi := isBaozi, isDuizi := isDuizi, isShunzi := isShunzi, isZaliu := isZaliu }
  | _ => { isBaozi := false, isDuizi := false, isShunzi := false, isZaliu := false }

/-- `analyzeLongHuHe` of the analyzer, on the `[num1, _, num3]` shape. -/
def analyzeLongHuHe (numbers : List Int) : LongHuHeAnalysis :=
  match numbers with
  | [num1, _, num3] =>
    { isLong := decide (num1 > num3), isHu := decide (num1 < num3),
      isHe := num1 == num3 }
  | _ => { isLong := false, isHu := false, isHe := false }

/-- `collectStatTypes` of the analyzer: all stat-type keys hit by a draw. -/
def collectStatTypes (sum : Int) (pattern : PatternAnalysis)
    (longHuHe : LongHuHeAnalysis) : List String :=
  let s := analyzeSumValue sum
  (if s.isDa then ["da"] else []) ++
  (if s.isXiao then ["xiao"] else []) ++
  (if s.isDan then ["dan"] else []) ++
  (if s.isShuang then ["shuang"] else []) ++
  (if s.isDa && s.isDan then ["dd"] else []) ++
  (if s.isXiao && s.isDan then ["xd"] else []) ++
  (if s.isDa && s.isShuang then ["ds"] else []) ++
  (if s.isXiao && s.isShuang then ["xs"] else []) ++
  (if s.isJiDa then ["jd"] else []) ++
  (if s.isJiXiao then ["jx"] else []) ++
  (if pattern.isBaozi then ["bz"] else []) ++
  (if pattern.isDuizi then ["dz"] else []) ++
  (if pattern.isShunzi then ["sz"] else []) ++
  (if pattern.isZaliu then ["zl"] else []) ++
  (if s.isXiaoBian then ["xb"] else []) ++
  (if s.isZhong then ["zhong"] else []) ++
  (if s.isDaBian then ["db"] else []) ++
  (if s.isBian then ["bian"] else []) ++
  (if longHuHe.isLong then ["long"] else []) ++
  (if longHuHe.isHu then ["hu"] else []) ++
  (if longHuHe.isHe then ["he"] else []) ++
  [padTwo (toString sum)]

/-- The `opennum.split('+').map(n => parseInt(n))` step of
`analyzeFullLotteryData`. -/
def analyzeNumbers (opennum : String) : List Int :=
  (splitString '+' opennum).map parseIntD

/-- `analyzeFullLotteryData`: the full one-shot enrichment of a draw. -/
def analyzeFullLotteryData (opennum : String) (sum : Int) : LotteryAnalysis :=
  let numbers := analyzeNumbers opennum
  let sumAnalysis := analyzeSumValue sum
  let patternAnalysis := analyzePattern numbers
  let longHuHeAnalysis := analyzeLongHuHe numbers
  let types := collectStatTypes sum patternAnalysis longHuHeAnalysis
  { sum := sumAnalysis, pattern := patternAnalysis,
    longHuHe := longHuHeAnalysis, types := types }

/-! ## Data model (src/src/types/index.ts) -/

/-- `BaseLotteryData`: a raw draw as emitted by a source parser. -/
structure BaseLotteryData where
  qihao : String
  opentime : String
  opennum : String
  sum_value : Int
  source : String
deriving Repr, DecidableEq

/-- `LotteryData`: a draw together with the 19 precomputed enrichment fields. -/
structure LotteryData where
  qihao : String
  opentime : String
  opennum : String
  sum_value : Int
  source : String
  is_da : Bool
  is_xiao : Bool
  is_dan : Bool
  is_shuang : Bool
  is_jida : Bool
  is_jixiao : Bool
  combination : String
  is_baozi : Bool
  is_duizi : Bool
  is_shunzi : Bool
  is_zaliu : Bool
  is_xiaobian : Bool
  is_zhong : Bool
  is_dabian : Bool
  is_bian : Bool
  is_long : Bool
  is_hu : Bool
  is_he : Bool
deriving Repr, DecidableEq

/-- The `enrichedData` construction of `LotteryWriter.processDataWithLock`
(src/unnamed/part_011): spread the base draw and add the analyzer's fields. -/
def enrichLotteryData (data : BaseLotteryData) : LotteryData :=
  let analysis := analyzeFullLotteryData data.opennum data.sum_value
  { qihao := data.qihao, opentime := data.opentime, opennum := data.opennum,
    sum_value := data.sum_value, source := data.source,
    is_da := analysis.sum.isDa, is_xiao := analysis.sum.isXiao,
    is_dan := analysis.sum.isDan, is_shuang := analysis.sum.isShuang,
    is_jida := analysis.sum.isJiDa, is_jixiao := analysis.sum.isJiXiao,
    combination := analysis.sum.combination,
    is_baozi := analysis.pattern.isBaozi, is_duizi := analysis.pattern.isDuizi,
    is_shunzi := analysis.pattern.isShunzi, is_zaliu := analysis.pattern.isZaliu,
    is_xiaobian := analysis.sum.isXiaoBian, is_zhong := analysis.sum.isZhong,
    is_dabian := analysis.sum.isDaBian, is_bian := analysis.sum.isBian,
    is_long := analysis.longHuHe.isLong, is_hu := analysis.longHuHe.isHu,
    is_he := analysis.longHuHe.isHe }

/-! ## Stat-type constants (src/unnamed/part_005, config/stat-types) -/

/-- `BASE_STAT_TYPES`: the 21 boolean/enum stat-type keys, in display order. -/
def BASE_STAT_TYPES : List String :=
  ["da", "xiao", "dan", "shuang", "dd", "xd", "ds", "xs", "jd", "jx",
   "dz", "sz", "bz", "zl", "xb", "zhong", "db", "bian", "long", "hu", "he"]

/-- `getSumValueTypes()`: the 28 two-digit sum buckets `"00".."27"`. -/
def getSumValueTypes : List String :=
  (List.range 28).map (fun i => padTwo (toString i))

/-- `getAllStatTypes()`: base types followed by sum buckets. -/
def getAllStatTypes : List String :=
  BASE_STAT_TYPES ++ getSumValueTypes

/-- `collectHitTypes` (src/unnamed/part_004): the hit set of an enriched draw,
read off the precomputed fields, with the 2-digit sum bucket always appended. -/
def collectHitTypes (data : LotteryData) : List String :=
  (if data.is_da then ["da"] else []) ++
  (if data.is_xiao then ["xiao"] else []) ++
  (if data.is_dan then ["dan"] else []) ++
  (if data.is_shuang then ["shuang"] else []) ++
  (if data.is_da && data.is_dan then ["dd"] else []) ++
  (if data.is_xiao && data.is_dan then ["xd"] else []) ++
  (if data.is_da && data.is_shuang then ["ds"] else []) ++
  (if data.is_xiao && data.is_shuang then ["xs"] else []) ++
  (if data.is_jida then ["jd"] else []) ++
  (if data.is_jixiao then ["jx"] else []) ++
  (if data.is_baozi then ["bz"] else []) ++
  (if data.is_duizi then ["dz"] else []) ++
  (if data.is_shunzi then ["sz"] else []) ++
  (if data.is_zaliu then ["zl"] else []) ++
  (if data.is_xiaobian then ["xb"] else []) ++
  (if data.is_zhong then ["zhong"] else []) ++
  (if data.is_dabian then ["db"] else []) ++
  (if data.is_bian then ["bian"] else []) ++
  (if data.is_long then ["long"] else []) ++
  (if data.is_hu then ["hu"] else []) ++
  (if data.is_he then ["he"] else []) ++
  [padTwo (toString data.sum_value)]

/-! ## Omission engine (src/src/services/omission-data.ts) -/

/-- The `omission_data` table: one `(omission_type, omission_count)` record per
stat type (49 records once initialized). -/
abbrev OmissionTable := List (String × Nat)

/-- `updateOmissionData`, step 2-4: the new table computed from the current
records — counters of hit types reset to 0, all others incremented. -/
def updateOmissionData (data : LotteryData) (table : OmissionTable) : OmissionTable :=
  let hitTypes := collectHitTypes data
  table.map (fun record =>
    (record.1, if hitTypes.contains record.1 then 0 else record.2 + 1))

/-- The omission engine applied to a whole sequence of committed draws, oldest
first: one `updateOmissionData` per committed draw. -/
def runOmission (draws : List LotteryData) (table : OmissionTable) : OmissionTable :=
  draws.foldl (fun acc d => updateOmissionData d acc) table

/-- The trajectory of one category's counter across a committed-draw sequence:
reset to 0 on a draw hitting `c`, incremented by one otherwise. This is the
scalar shadow of `runOmission` at a fixed record. -/
def omissionCounterRun (c : String) (draws : List LotteryData) (n : Nat) : Nat :=
  draws.foldl (fun acc d => if (collectHitTypes d).contains c then 0 else acc + 1) n

/-! ## Prediction writer (src/src/modules/prediction/writer.ts) -/

/-- `PredictType`: the four prediction streams. -/
inductive PredictType where
  | danshuang
  | daxiao
  | combination
  | kill
deriving Repr, DecidableEq

/-- `calculateResultValue`: the ground-truth label of a prediction type for the
actual sum. -/
def calculateResultValue (predictType : PredictType) (sumValue : Int) : String :=
  match predictType with
  | .danshuang => if sumValue % 2 = 1 then "单" else "双"
  | .daxiao => if sumValue ≥ 14 then "大" else "小"
  | .combination | .kill =>
    let isDa := decide (sumValue ≥ 14)
    let isDan := decide (sumValue % 2 = 1)
    if isDa && isDan then "大单"
    else if !isDa && isDan then "小单"
    else if isDa && !isDan then "大双"
    else "小双"

/-- `calculateHit`: whether a prediction hit, given the ground-truth value. -/
def calculateHit (predictType : PredictType) (predictValue resultValue : String) : Bool :=
  match predictType with
  | .danshuang | .daxiao => predictValue == resultValue
  | .combination =>
    let predictCombos := (splitOnChar ',' predictValue.toList).map
      (fun cs => String.mk (trimChars cs))
    predictCombos.contains resultValue
  | .kill => predictValue != resultValue

/-! ## Validation helpers (src/src/helpers/validator.ts) -/

/-- `ValidationResult`: validity flag and optional error message. -/
structure ValidationResult where
  valid : Bool
  error : Option String := none
deriving Repr, DecidableEq

/-- `validateSum`: the three numbers must add up to the declared sum. -/
def validateSum (a b c sum : Int) : ValidationResult :=
  let calculatedSum := a + b + c
  if calculatedSum ≠ sum then
    { valid := false, error := some "和值校验失败" }
  else
    { valid := true }

/-- The regex `^\d{7}$` of `validateIssue`. -/
def matchesIssuePattern (issue : String) : Bool :=
  issue.length == 7 && issue.toList.all Char.isDigit

/-- `validateIssue`: the issue must be exactly 7 ASCII digits. -/
def validateIssue (issue : String) : ValidationResult :=
  if !matchesIssuePattern issue then
    { valid := false, error := some "期号格式错误" }
  else
    { valid := true }

/-- The regex `^\d{2}-\d{2}\s\d{2}:\d{2}:\d{2}$` of `validateTime`. -/
def matchesShortTime (timeStr : String) : Bool :=
  match timeStr.toList with
  | [m1, m2, h, d1, d2, w, h1, h2, c1, n1, n2, c2, s1, s2] =>
    m1.isDigit && m2.isDigit && h == '-' && d1.isDigit && d2.isDigit &&
    w.isWhitespace && h1.isDigit && h2.isDigit && c1 == ':' &&
    n1.isDigit && n2.isDigit && c2 == ':' && s1.isDigit && s2.isDigit
  | _ => false

/-- The regex `^\d{4}-\d{2}-\d{2}\s\d{2}:\d{2}:\d{2}$` of `validateTime`. -/
def matchesFullTime (timeStr : String) : Bool :=
  match timeStr.toList with
  | [y1, y2, y3, y4, g1, m1, m2, g2, d1, d2, w, h1, h2, c1, n1, n2, c2, s1, s2] =>
    y1.isDigit && y2.isDigit && y3.isDigit && y4.isDigit && g1 == '-' &&
    m1.isDigit && m2.isDigit && g2 == '-' && d1.isDigit && d2.isDigit &&
    w.isWhitespace && h1.isDigit && h2.isDigit && c1 == ':' &&
    n1.isDigit && n2.isDigit && c2 == ':' && s1.isDigit && s2.isDigit
  | _ => false

/-- `validateTime`: short `MM-DD HH:mm:ss` or full `YYYY-MM-DD HH:mm:ss`. -/
def validateTime (timeStr : String) : ValidationResult :=
  if !(matchesShortTime timeStr || matchesFullTime timeStr) then
    { valid := false, error := some "时间格式错误" }
  else
    { valid := true }

/-- The regex `^\d+\+\d+\+\d+$` (`OPENNUM_PATTERN`, shared with the universal
parser's first normalization case): exactly three nonempty all-digit groups
separated by `+`. -/
def matchesOpennumPattern (s : String) : Bool :=
  match splitOnChar '+' s.toList with
  | [x, y, z] =>
    !x.isEmpty && x.all Char.isDigit && !y.isEmpty && y.all Char.isDigit &&
    !z.isEmpty && z.all Char.isDigit
  | _ => false

/-- `parseNumbersFromOpennum`: split on `+` and `parseInt` each part. -/
def parseNumbersFromOpennum (opennum : String) : List Int :=
  (splitString '+' opennum).map parseIntD

/-- `validateNumbersRange`: every parsed number must lie in 0..9. -/
def validateNumbersRange (numbers : List Int) : ValidationResult :=
  if numbers.all (fun num => decide (0 ≤ num) && decide (num ≤ 9)) then
    { valid := true }
  else
    { valid := false, error := some "开奖号码数字超出范围" }

/-- `validateOpennum`: format `digits+digits+digits` with every number 0..9. -/
def validateOpennum (opennum : String) : ValidationResult :=
  if !matchesOpennumPattern opennum then
    { valid := false, error := some "开奖号码格式错误" }
  else
    let numbers := parseNumbersFromOpennum opennum
    let rangeValidation := validateNumbersRange numbers
    if !rangeValidation.valid then rangeValidation
    else { valid := true }

/-- `isIssueIncreasing`: `parseInt` both issues and compare; a `NaN` on either
side makes the JS comparison false. -/
def isIssueIncreasing (currentIssue previousIssue : String) : Bool :=
  match parseIntJS currentIssue, parseIntJS previousIssue with
  | some current, some previous => decide (current > previous)
  | _, _ => false

/-- `parseOpennum`: the three numbers of an `a+b+c` string and their sum. -/
def parseOpennum (opennum : String) : Option (Int × Int × Int × Int) :=
  match (splitString '+' opennum).map parseIntD with
  | [a, b, c] => some (a, b, c, a + b + c)
  | _ => none

/-! ## Draw validation (validateLotteryData, src/src/modules/lottery,
concatenated in src/src/modules/lottery/issue-tracker.ts after the tracker) -/

/-- `validateDataSum`: parse the open numbers and check the declared sum. -/
def validateDataSum (opennum : String) (sumValue : Int) : ValidationResult :=
  match parseOpennum opennum with
  | none => { valid := false, error := some "无法解析开奖号码" }
  | some (a, b, c, _) => validateSum a b c sumValue

/-- `checkIssueIncrement` only emits a warning: this flag records whether the
warning fires (a last issue exists and the new issue is not increasing); it
never affects the validation result. -/
def checkIssueIncrementWarns (currentIssue : String) (lastIssue : Option String) : Bool :=
  match lastIssue with
  | some last => !(isIssueIncreasing currentIssue last)
  | none => false

/-- `validateLotteryData`: issue format, numbers format and range, time format,
sum consistency — each failure aborts with that check's error — then the
non-blocking issue-increment warning. `lastIssue` stands for the stored
last-issue pointer read from the dedup cache. -/
def validateLotteryData (data : BaseLotteryData) (lastIssue : Option String) : ValidationResult :=
  let issueValidation := validateIssue data.qihao
  if !issueValidation.valid then issueValidation
  else
    let opennumValidation := validateOpennum data.opennum
    if !opennumValidation.valid then opennumValidation
    else
      let timeValidation := validateTime data.opentime
      if !timeValidation.valid then timeValidation
      else
        let sumValidation := validateDataSum data.opennum data.sum_value
        if !sumValidation.valid then sumValidation
        else
          let _warned := checkIssueIncrementWarns data.qihao lastIssue
          { valid := true }

/-! ## Issue tracker (src/src/modules/lottery/issue-tracker.ts) -/

/-- The tracker's two cells: the high-water mark and the initialized flag. -/
structure IssueTrackerState where
  latestIssue : String
  isInitialized : Bool
deriving Repr, DecidableEq

/-- `initialize()`: the draw-store read either fails (`Except.error`), finds no
row (`ok none`) or yields the newest issue (`ok (some qihao)`). All three arms
set `isInitialized := true`; the error arm falls back to `"0"` and completes
without raising. -/
def initializeTracker (readResult : Except Unit (Option String)) : IssueTrackerState :=
  match readResult with
  | .ok (some qihao) => { latestIssue := qihao, isInitialized := true }
  | .ok none => { latestIssue := "0", isInitialized := true }
  | .error _ => { latestIssue := "0", isInitialized := true }

/-- `isNewIssue`: pass everything while uninitialized; otherwise `parseInt`
both issues and require strictly greater. A `NaN` on either side makes the JS
`>` false; `parseInt` never throws, so the catch branch returning true is
unreachable and has no counterpart here. -/
def isNewIssue (st : IssueTrackerState) (qihao : String) : Bool :=
  if !st.isInitialized then true
  else
    match parseIntJS st.latestIssue, parseIntJS qihao with
    | some currentIssueNum, some newIssueNum => decide (newIssueNum > currentIssueNum)
    | _, _ => false

/-- `updateLatestIssue`: accept only strictly increasing issues; a `NaN` on
either side makes the JS `>` false and the update is ignored with a warning. -/
def updateLatestIssue (st : IssueTrackerState) (qihao : String) : IssueTrackerState :=
  match parseIntJS st.latestIssue, parseIntJS qihao with
  | some currentIssueNum, some newIssueNum =>
    if newIssueNum > currentIssueNum then { st with latestIssue := qihao } else st
  | _, _ => st

/-- `isReady()`: the initialized flag. -/
def isReady (st : IssueTrackerState) : Bool :=
  st.isInitialized

/-! ## Draw store upsert (LotteryWriter.writeToDatabase, src/unnamed/part_011) -/

/-- A persisted `latest_lottery_data` row: the draw columns (numbers, sum,
source and all 19 derived fields) plus the two timestamp columns. -/
structure StoredDraw where
  row : LotteryData
  created_at : Nat
  updated_at : Nat
deriving Repr, DecidableEq

/-- The `latest_lottery_data` table, keyed by `qihao`. -/
abbrev DrawStore := List (String × StoredDraw)

/-- Prisma's `upsert`: if a row with the key exists apply the update clause to
it, otherwise insert the create clause. -/
def prismaUpsert (store : DrawStore) (key : String) (create : StoredDraw)
    (update : StoredDraw → StoredDraw) : DrawStore :=
  if store.any (fun entry => entry.1 == key) then
    store.map (fun entry => if entry.1 == key then (entry.1, update entry.2) else entry)
  else
    store ++ [(key, create)]

/-- The upsert of `LotteryWriter.writeToDatabase`: create carries every column
of the enriched draw with fresh timestamps, and the update clause is the empty
object `{}` — the identity on the stored row. -/
def writeToDatabaseUpsert (store : DrawStore) (data : LotteryData) (now : Nat) : DrawStore :=
  prismaUpsert store data.qihao
    { row := data, created_at := now, updated_at := now }
    (fun row => row)

/-! ## Write path (LotteryWriter, src/unnamed/part_011) -/

/-- Outcome signalled by the storage engine for the draw upsert: success, a
`P2002` unique-constraint violation, or any other database error. -/
inductive UpsertOutcome where
  | ok
  | uniqueViolation
  | otherError
deriving Repr, DecidableEq

/-- `writeToDatabase`'s error behaviour: a `P2002` unique-constraint violation
is caught and silently converted to success; every other error is rethrown. -/
def writeToDatabase (outcome : UpsertOutcome) : Except String Unit :=
  match outcome with
  | .ok => .ok ()
  | .uniqueViolation => .ok ()
  | .otherError => .error "DB_WRITE_FAILED"

/-- The writer-visible state threaded through `processDataWithLock`: the dedup
seen-set, the last-issue pointer, the in-process tracker, and the
`dataWritten` events emitted so far (by issue). -/
structure WriterState where
  seen : List String
  lastIssue : Option String
  tracker : IssueTrackerState
  events : List String
deriving Repr, DecidableEq

/-- `finalizeProcessing`: mark processed, publish the last-issue pointer,
update the in-process tracker, emit `dataWritten`. -/
def finalizeProcessing (data : LotteryData) (st : WriterState) : WriterState :=
  { seen := data.qihao :: st.seen,
    lastIssue := some data.qihao,
    tracker := updateLatestIssue st.tracker data.qihao,
    events := st.events ++ [data.qihao] }

/-- `processDataWithLock`: re-check the seen-set, validate, enrich, write (with
the P2002-to-success conversion), then finalize. The statistics and omission
updates are invoked between write and finalize but log and swallow their own
failures, and touch none of the state tracked here. -/
def processDataWithLock (data : BaseLotteryData) (upsert : UpsertOutcome)
    (st : WriterState) : Except String WriterState :=
  if st.seen.contains data.qihao then .ok st
  else
    let validationResult := validateLotteryData data st.lastIssue
    if !validationResult.valid then .error (validationResult.error.getD "数据校验失败")
    else
      let enrichedData := enrichLotteryData data
      match writeToDatabase upsert with
      | .error e => .error e
      | .ok _ => .ok (finalizeProcessing enrichedData st)

/-! ## Universal parser number normalization (src/src/helpers/parser.ts) -/

/-- The regex `^\d+,\d+,\d+$`: three nonempty all-digit groups separated by
commas. -/
def matchesCommaTriple (s : String) : Bool :=
  match splitOnChar ',' s.toList with
  | [x, y, z] =>
    !x.isEmpty && x.all Char.isDigit && !y.isEmpty && y.all Char.isDigit &&
    !z.isEmpty && z.all Char.isDigit
  | _ => false

/-- The maximal digit runs of a string: JS `str.split(/[^\d]+/)` followed by
the empty-part filter. -/
def digitRuns (s : String) : List (List Char) :=
  (splitOnPred (fun c => !c.isDigit) s.toList).filter (fun run => !run.isEmpty)

/-- The regex `^\d+\s+\d+\s+\d+$`: only digits and whitespace, starting and
ending with a digit, with exactly three digit runs. -/
def matchesWsTriple (s : String) : Bool :=
  let cs := s.toList
  cs.all (fun c => c.isDigit || c.isWhitespace) &&
  (cs.head?.elim false Char.isDigit) &&
  (cs.getLast?.elim false Char.isDigit) &&
  (digitRuns s).length == 3

/-- `normalizeNumbers`: map the accepted forms `a+b+c`, `a,b,c`, `a b c`,
3-digit `abc` and the generic non-digit-separator fallback to `a+b+c`;
anything else is `null`. On a string matching the whitespace form,
`replace(/\s+/g, '+')` joins precisely the digit runs with `+`, which is how
that branch is rendered here. -/
def normalizeNumbers (numbers : String) : Option String :=
  let str := String.mk (trimChars numbers.toList)
  if matchesOpennumPattern str then some str
  else if matchesCommaTriple str then
    some (String.mk (str.toList.map (fun c => if c == ',' then '+' else c)))
  else if matchesWsTriple str then
    some (String.mk (List.intercalate ['+'] (digitRuns str)))
  else if str.length == 3 && str.toList.all Char.isDigit then
    match str.toList with
    | [c1, c2, c3] =>
      some (String.mk [c1] ++ "+" ++ String.mk [c2] ++ "+" ++ String.mk [c3])
    | _ => none
  else
    let parts := (splitOnPred (fun c => !c.isDigit) str.toList).filter
      (fun p => p.length > 0)
    if parts.length == 3 && parts.all (fun p => !p.isEmpty && p.all Char.isDigit) then
      some (String.mk (List.intercalate ['+'] parts))
    else none

/-! ## PlayNow keno parser (src/src/modules/fetcher/sources/playnow-keno.ts) -/

/-- The `monthMap` lookup with its `|| '01'` default. -/
def kenoMonth (m : String) : String :=
  if m == "Jan" then "01" else if m == "Feb" then "02"
  else if m == "Mar" then "03" else if m == "Apr" then "04"
  else if m == "May" then "05" else if m == "Jun" then "06"
  else if m == "Jul" then "07" else if m == "Aug" then "08"
  else if m == "Sep" then "09" else if m == "Oct" then "10"
  else if m == "Nov" then "11" else if m == "Dec" then "12"
  else "01"

/-- The date regex `(\w+)\s+(\d+),\s+(\d+)` of `normalizeKenoTime`, modelled on
the documented `"Mon D, YYYY"` feed shape: month word, day digits, year
digits. -/
def parseKenoDate (dateStr : String) : Option (String × String × String) :=
  match splitOnChar ',' dateStr.toList with
  | [mdCs, restCs] =>
    match restCs with
    | ' ' :: yearCs =>
      match splitOnChar ' ' mdCs with
      | [monCs, dayCs] =>
        if !monCs.isEmpty && monCs.all Char.isAlphanum &&
           !dayCs.isEmpty && dayCs.all Char.isDigit &&
           !yearCs.isEmpty && yearCs.all Char.isDigit then
          some (String.mk monCs, String.mk dayCs, String.mk yearCs)
        else none
      | _ => none
    | _ => none
  | _ => none

/-- The time regex `(\d+):(\d+):(\d+)\s+(AM|PM)` of `normalizeKenoTime`,
modelled on the documented `"HH:MM:SS AM/PM"` feed shape. -/
def parseKenoClock (timeStr : String) : Option (String × String × String × String) :=
  match splitOnChar ' ' timeStr.toList with
  | [hmsCs, periodCs] =>
    let period := String.mk periodCs
    if period == "AM" || period == "PM" then
      match splitOnChar ':' hmsCs with
      | [h, m, s] =>
        if !h.isEmpty && h.all Char.isDigit && !m.isEmpty && m.all Char.isDigit &&
           !s.isEmpty && s.all Char.isDigit then
          some (String.mk h, String.mk m, String.mk s, period)
        else none
      | _ => none
    else none
  | _ => none

/-- `normalizeKenoTime`: `"Mon D, YYYY"` and `"HH:MM:SS AM/PM"` to
`"YYYY-MM-DD HH:mm:ss"` in 24-hour form, falling back to the raw strings when
either piece fails to match. -/
def normalizeKenoTime (dateStr timeStr : String) : String :=
  match parseKenoDate dateStr with
  | none => dateStr ++ " " ++ timeStr
  | some (mon, day, year) =>
    let month := kenoMonth mon
    let dayPadded := padTwo day
    match parseKenoClock timeStr with
    | none => year ++ "-" ++ month ++ "-" ++ dayPadded ++ " " ++ timeStr
    | some (h, m, s, period) =>
      let hour := parseIntD h
      let hour :=
        if period == "PM" && hour ≠ 12 then hour + 12
        else if period == "AM" && hour == 12 then 0
        else hour
      year ++ "-" ++ month ++ "-" ++ dayPadded ++ " " ++
        padTwo (toString hour) ++ ":" ++ m ++ ":" ++ s

/-- A first element of the keno feed. `none` in a field models a missing or
`undefined` JSON member; the required-field guard of `parseKenoData` is the JS
truthiness check, under which the number 0 and the empty string are as falsy
as a missing field. Keno draw numbers are the naturals 1..80. -/
structure KenoDrawData where
  drawNbr : Option Int
  drawDate : Option String
  drawTime : Option String
  drawNbrs : Option (List Nat)
deriving Repr, DecidableEq

/-- The payload handed to `parseKenoData`: either not an array at all (any
other JSON value, including null) or an array of keno elements. -/
inductive KenoInput where
  | notArray
  | arr (elems : List KenoDrawData)
deriving Repr, DecidableEq

/-- JS truthiness of the optional `drawNbr` number. -/
def kenoNbrTruthy (v : Option Int) : Bool :=
  match v with
  | none => false
  | some n => n != 0

/-- JS truthiness of an optional string field. -/
def kenoStrTruthy (v : Option String) : Bool :=
  match v with
  | none => false
  | some s => s != ""

/-- `parseKenoData`: reject non-arrays, empty arrays, falsy required fields
and number lists of length other than 20; otherwise reduce the 20 keno
numbers to the three digits (each a sum over six fixed 0-based positions,
mod 10), join them as `a+b+c` and total them. -/
def parseKenoData (data : KenoInput) : Option BaseLotteryData :=
  match data with
  | .notArray => none
  | .arr [] => none
  | .arr (kenoData :: _) =>
    if !(kenoNbrTruthy kenoData.drawNbr && kenoStrTruthy kenoData.drawDate &&
         kenoStrTruthy kenoData.drawTime && kenoData.drawNbrs.isSome) then none
    else
      match kenoData.drawNbr, kenoData.drawDate, kenoData.drawTime, kenoData.drawNbrs with
      | some drawNbr, some drawDate, some drawTime, some nums =>
        if nums.length == 20 then
          let num1 := (nums.getD 1 0 + nums.getD 4 0 + nums.getD 7 0 +
            nums.getD 10 0 + nums.getD 13 0 + nums.getD 16 0) % 10
          let num2 := (nums.getD 2 0 + nums.getD 5 0 + nums.getD 8 0 +
            nums.getD 11 0 + nums.getD 14 0 + nums.getD 17 0) % 10
          let num3 := (nums.getD 3 0 + nums.getD 6 0 + nums.getD 9 0 +
            nums.getD 12 0 + nums.getD 15 0 + nums.getD 18 0) % 10
          let sum := num1 + num2 + num3
          some { qihao := toString drawNbr,
                 opentime := normalizeKenoTime drawDate drawTime,
                 opennum := toString num1 ++ "+" ++ toString num2 ++ "+" ++ toString num3,
                 sum_value := (sum : Int),
                 source := "playnow-keno" }
        else none
      | _, _, _, _ => none

/-! ## Claim-statement helpers -/

/-- Number of true flags in a list, for the exactly-one invariants. -/
def countTrue (l : List Bool) : Nat :=
  (l.filter (fun b => b)).length

/-- The four combination labels of the prediction grammar. -/
def comboLabels : List String :=
  ["大单", "小单", "大双", "小双"]

/-! ## Theorems settling the claims -/

/-- C1: for every draw whose open numbers are three digits `a`, `b`, `c` in
0..9 and whose sum equals `a+b+c`, the enrichment computed by
`analyzeFullLotteryData` satisfies all the mutual-exclusion invariants:
exactly one of isDa/isXiao, exactly one of isDan/isShuang, exactly one of
isBaozi/isDuizi/isShunzi/isZaliu (over all 1000 triples), exactly one of
isXiaoBian/isZhong/isDaBian, and exactly one of isLong/isHu/isHe. -/
theorem c1_enrichment_mutual_exclusion :
    ∀ a b c : Fin 10,
      (countTrue [(analyzeFullLotteryData
          (toString a.val ++ "+" ++ toString b.val ++ "+" ++ toString c.val)
          ((a.val : Int) + b.val + c.val)).sum.isDa,
        (analyzeFullLotteryData
          (toString a.val ++ "+" ++ toString b.val ++ "+" ++ toString c.val)
          ((a.val : Int) + b.val + c.val)).sum.isXiao] = 1) ∧
      (countTrue [(analyzeFullLotteryData
          (toString a.val ++ "+" ++ toString b.val ++ "+" ++ toString c.val)
          ((a.val : Int) + b.val + c.val)).sum.isDan,
        (analyzeFullLotteryData
          (toString a.val ++ "+" ++ toString b.val ++ "+" ++ toString c.val)
          ((a.val : Int) + b.val + c.val)).sum.isShuang] = 1) ∧
      (countTrue [(analyzeFullLotteryData
          (toString a.val ++ "+" ++ toString b.val ++ "+" ++ toString c.val)
          ((a.val : Int) + b.val + c.val)).pattern.isBaozi,
        (analyzeFullLotteryData
          (toString a.val ++ "+" ++ toString b.val ++ "+" ++ toString c.val)
          ((a.val : Int) + b.val + c.val)).pattern.isDuizi,
        (analyzeFullLotteryData
          (toString a.val ++ "+" ++ toString b.val ++ "+" ++ toString c.val)
          ((a.val : Int) + b.val + c.val)).pattern.isShunzi,
        (analyzeFullLotteryData
          (toString a.val ++ "+" ++ toString b.val ++ "+" ++ toString c.val)
          ((a.val : Int) + b.val + c.val)).pattern.isZaliu] = 1) ∧
      (countTrue [(analyzeFullLotteryData
          (toString a.val ++ "+" ++ toString b.val ++ "+" ++ toString c.val)
          ((a.val : Int) + b.val + c.val)).sum.isXiaoBian,
        (analyzeFullLotteryData
          (toString a.val ++ "+" ++ toString b.val ++ "+" ++ toString c.val)
          ((a.val : Int) + b.val + c.val)).sum.isZhong,
        (analyzeFullLotteryData
          (toString a.val ++ "+" ++ toString b.val ++ "+" ++ toString c.val)
          ((a.val : Int) + b.val + c.val)).sum.isDaBian] = 1) ∧
      (countTrue [(analyzeFullLotteryData
          (toString a.val ++ "+" ++ toString b.val ++ "+" ++ toString c.val)
          ((a.val : Int) + b.val + c.val)).longHuHe.isLong,
        (analyzeFullLotteryData
          (toString a.val ++ "+" ++ toString b.val ++ "+" ++ toString c.val)
          ((a.val : Int) + b.val + c.val)).longHuHe.isHu,
        (analyzeFullLotteryData
          (toString a.val ++ "+" ++ toString b.val ++ "+" ++ toString c.val)
          ((a.val : Int) + b.val + c.val)).longHuHe.isHe] = 1) := by
  decide

/-- C3: for every prediction type and every actual sum 0..27, the verifier's
ground truth is parity 单/双 by oddness, magnitude 大/小 by `sum ≥ 14`, and the
combo/kill label the matching element of {大单, 小单, 大双, 小双}; hits are
exact equality for parity and magnitude, membership among the two
comma-separated predicted labels for combo, and inequality for kill. -/
theorem c3_verifier_ground_truth_and_hit :
    (∀ s : Fin 28,
      calculateResultValue .danshuang (s.val : Int) =
        (if (s.val : Int) % 2 = 1 then "单" else "双")) ∧
    (∀ s : Fin 28,
      calculateResultValue .daxiao (s.val : Int) =
        (if 14 ≤ (s.val : Int) then "大" else "小")) ∧
    (∀ s : Fin 28,
      calculateResultValue .combination (s.val : Int) =
        (if 14 ≤ (s.val : Int) then
          (if (s.val : Int) % 2 = 1 then "大单" else "大双")
        else
          (if (s.val : Int) % 2 = 1 then "小单" else "小双"))) ∧
    (∀ s : Fin 28,
      calculateResultValue .kill (s.val : Int) =
        calculateResultValue .combination (s.val : Int)) ∧
    (∀ s : Fin 28, ∀ predictValue : String,
      calculateHit .danshuang predictValue (calculateResultValue .danshuang (s.val : Int)) =
        (predictValue == calculateResultValue .danshuang (s.val : Int))) ∧
    (∀ s : Fin 28, ∀ predictValue : String,
      calculateHit .daxiao predictValue (calculateResultValue .daxiao (s.val : Int)) =
        (predictValue == calculateResultValue .daxiao (s.val : Int))) ∧
    (∀ s : Fin 28, ∀ i j : Fin 4,
      calculateHit .combination
          (comboLabels.getD i.val "" ++ "," ++ comboLabels.getD j.val "")
          (calculateResultValue .combination (s.val : Int)) =
        ((comboLabels.getD i.val "" ==
            calculateResultValue .combination (s.val : Int)) ||
         (comboLabels.getD j.val "" ==
            calculateResultValue .combination (s.val : Int)))) ∧
    (∀ s : Fin 28, ∀ predictValue : String,
      calculateHit .kill predictValue (calculateResultValue .kill (s.val : Int)) =
        !(predictValue == calculateResultValue .kill (s.val : Int))) := by
  refine ⟨by decide, by decide, by decide, by decide, fun s pv => rfl, fun s pv => rfl,
    by decide, fun s pv => rfl⟩

/-- C7, counterexample: the normalization does not reject `"10+5+8"` (it is
returned unchanged, matching the `a+b+c` form with multi-digit groups) and
does not reject `"3-5-8"` (the generic separator fallback joins its digit runs
as `"3+5+8"`); the claim's rejection clause is false. -/
theorem c7_rejection_counterexample :
    normalizeNumbers "10+5+8" = some "10+5+8" ∧
    normalizeNumbers "3-5-8" = some "3+5+8" := by
  decide

set_option maxHeartbeats 3200000 in
/-- C7, amended: the normalization maps each accepted single-digit input form
`a+b+c`, `a,b,c`, `a b c` and 3-character `abc` to canonical `a+b+c`, but
does not reject `"10+5+8"` (returned unchanged) or `"3-5-8"` (normalized to
`"3+5+8"` by the fallback); digit-range rejection happens later in
`validateOpennum`. -/
theorem c7_normalization_amended :
    (∀ a b c : Fin 10,
      normalizeNumbers (toString a.val ++ "+" ++ toString b.val ++ "+" ++ toString c.val) =
        some (toString a.val ++ "+" ++ toString b.val ++ "+" ++ toString c.val)) ∧
    (∀ a b c : Fin 10,
      normalizeNumbers (toString a.val ++ "," ++ toString b.val ++ "," ++ toString c.val) =
        some (toString a.val ++ "+" ++ toString b.val ++ "+" ++ toString c.val)) ∧
    (∀ a b c : Fin 10,
      normalizeNumbers (toString a.val ++ " " ++ toString b.val ++ " " ++ toString c.val) =
        some (toString a.val ++ "+" ++ toString b.val ++ "+" ++ toString c.val)) ∧
    (∀ a b c : Fin 10,
      normalizeNumbers (toString a.val ++ toString b.val ++ toString c.val) =
        some (toString a.val ++ "+" ++ toString b.val ++ "+" ++ toString c.val)) ∧
    normalizeNumbers "10+5+8" = some "10+5+8" ∧
    normalizeNumbers "3-5-8" = some "3+5+8" := by
  refine ⟨by decide, by decide, by decide, by decide, by decide, by decide⟩

/-- C9: the draw upsert's update clause is the empty object, so re-processing
any payload carrying an already-stored issue leaves the store — every column
of every row — unchanged; the first committed write for an issue is never
overwritten. -/
theorem c9_upsert_empty_update_frame :
    ∀ (store : DrawStore) (data : LotteryData) (now : Nat),
      store.any (fun entry => entry.1 == data.qihao) = true →
      writeToDatabaseUpsert store data now = store := by
  intro store data now h
  unfold writeToDatabaseUpsert prismaUpsert
  rw [if_pos h]
  have : (fun entry : String × StoredDraw =>
      if entry.1 == data.qihao then (entry.1, entry.2) else entry) = fun entry => entry := by
    funext entry
    simp
  rw [this]
  simp

/-- C9 witness: a store already holding issue 2025001 is returned unchanged by
an upsert of a conflicting payload for the same issue. -/
theorem c9_upsert_empty_update_frame_witness :
    writeToDatabaseUpsert
      [("2025001",
        { row := enrichLotteryData
            { qihao := "2025001", opentime := "2025-12-10 15:30:00",
              opennum := "3+5+8", sum_value := 16, source := "s1" },
          created_at := 1, updated_at := 1 })]
      (enrichLotteryData
        { qihao := "2025001", opentime := "2025-12-10 15:35:00",
          opennum := "1+2+3", sum_value := 6, source := "s2" }) 2 =
      [("2025001",
        { row := enrichLotteryData
            { qihao := "2025001", opentime := "2025-12-10 15:30:00",
              opennum := "3+5+8", sum_value := 16, source := "s1" },
          created_at := 1, updated_at := 1 })] := by
  exact c9_upsert_empty_update_frame _ _ 2 (by decide)

/-- C10: on an initialized tracker, an issue string that does not parse to a
number (JS `parseInt` yields `NaN`, it never throws — so the catch branch of
`isNewIssue` is unrepresented in the total model) makes `isNewIssue` return
false: unparseable issues are filtered, not passed through. -/
theorem c10_unparseable_issue_filtered :
    ∀ (st : IssueTrackerState) (qihao : String),
      st.isInitialized = true →
      parseIntJS qihao = none →
      isNewIssue st qihao = false := by
  intro st qihao hinit hparse
  unfold isNewIssue
  rw [hinit, hparse]
  cases parseIntJS st.latestIssue <;> simp

/-- C10 witness: the tracker initialized at `"0"` filters the unparseable
issue `"abc"`. -/
theorem c10_unparseable_issue_filtered_witness :
    isNewIssue { latestIssue := "0", isInitialized := true } "abc" = false := by
  exact c10_unparseable_issue_filtered _ "abc" rfl (by decide)

/-- One omission-engine application, record-wise: the counter at table
position `i` is reset when its category is hit and incremented otherwise. -/
theorem updateOmissionData_getElem (data : LotteryData) (table : OmissionTable)
    (i : Nat) (c : String) (n : Nat) (h : table[i]? = some (c, n)) :
    (updateOmissionData data table)[i]? =
      some (c, if (collectHitTypes data).contains c then 0 else n + 1) := by
  unfold updateOmissionData
  simp [List.getElem?_map, h]

/-- The table fold agrees record-wise with the scalar counter trajectory. -/
theorem runOmission_getElem (draws : List LotteryData) :
    ∀ (table : OmissionTable) (i : Nat) (c : String) (n : Nat),
      table[i]? = some (c, n) →
      (runOmission draws table)[i]? = some (c, omissionCounterRun c draws n) := by
  induction draws with
  | nil =>
    intro table i c n h
    simpa [runOmission, omissionCounterRun] using h
  | cons d ds ih =>
    intro table i c n h
    have hstep := updateOmissionData_getElem d table i c n h
    have htail := ih (updateOmissionData d table) i c
      (if (collectHitTypes d).contains c then 0 else n + 1) hstep
    simpa [runOmission, omissionCounterRun] using htail

/-- Closed form of the reset-or-increment fold over a Boolean hit sequence:
the length of the maximal hit-free suffix, plus the starting value when no
element of the sequence is a hit. -/
theorem foldl_reset_closed (bs : List Bool) (n : Nat) :
    List.foldl (fun acc b => if b then 0 else acc + 1) n bs =
      (bs.reverse.takeWhile (fun b => !b)).length +
      (if (bs.reverse.takeWhile (fun b => !b)).length = bs.length then n else 0) := by
  induction bs using List.reverseRecOn with
  | nil => simp
  | append_singleton bs b ih =>
    cases b with
    | true =>
      have h1 : List.foldl (fun acc b => if b then 0 else acc + 1) n (bs ++ [true]) = 0 := by
        rw [List.foldl_append]
        simp
      have h2 : (bs ++ [true]).reverse.takeWhile (fun b => !b) = [] := by
        simp
      rw [h1, h2]
      simp
    | false =>
      have h1 : List.foldl (fun acc b => if b then 0 else acc + 1) n (bs ++ [false]) =
          List.foldl (fun acc b => if b then 0 else acc + 1) n bs + 1 := by
        rw [List.foldl_append]
        simp
      have h2 : (bs ++ [false]).reverse.takeWhile (fun b => !b) =
          false :: bs.reverse.takeWhile (fun b => !b) := by
        simp
      rw [h1, h2, ih]
      by_cases hnever : (bs.reverse.takeWhile (fun b => !b)).length = bs.length
      · rw [if_pos hnever, if_pos (by simpa using hnever)]
        simp only [List.length_cons]
        omega
      · rw [if_neg hnever, if_neg (by simpa using hnever)]
        simp only [List.length_cons]

/-- Closed form of the scalar counter trajectory, by `foldl_reset_closed` over
the hit sequence of the draws. -/
theorem omissionCounterRun_closed (c : String) (draws : List LotteryData) (n : Nat) :
    omissionCounterRun c draws n =
      ((draws.map (fun d => (collectHitTypes d).contains c)).reverse.takeWhile
        (fun hit => !hit)).length +
      (if ((draws.map (fun d => (collectHitTypes d).contains c)).reverse.takeWhile
        (fun hit => !hit)).length = draws.length then n else 0) := by
  have hmap : omissionCounterRun c draws n =
      List.foldl (fun acc b => if b then 0 else acc + 1) n
        (draws.map (fun d => (collectHitTypes d).contains c)) := by
    simp [omissionCounterRun, List.foldl_map]
  rw [hmap, foldl_reset_closed]
  simp

/-- C2: one omission-engine application resets the stored counter of every hit
category to 0 and increments every other stored counter; the 2-digit sum
bucket is always in the hit set; and over any committed-draw sequence a
category's counter ends at the number of draws since it last held — the
length of the maximal hit-free suffix — plus its starting value when it never
held at all (the running count, for a table that started at zero); the fixed
category set has exactly 49 entries. -/
theorem c2_omission_counters :
    (∀ (data : LotteryData) (table : OmissionTable) (i : Nat) (c : String) (n : Nat),
      table[i]? = some (c, n) →
      (updateOmissionData data table)[i]? =
        some (c, if (collectHitTypes data).contains c then 0 else n + 1)) ∧
    (∀ data : LotteryData, padTwo (toString data.sum_value) ∈ collectHitTypes data) ∧
    (∀ (draws : List LotteryData) (table : OmissionTable) (i : Nat) (c : String) (n : Nat),
      table[i]? = some (c, n) →
      (runOmission draws table)[i]? =
        some (c,
          ((draws.map (fun d => (collectHitTypes d).contains c)).reverse.takeWhile
            (fun hit => !hit)).length +
          (if ((draws.map (fun d => (collectHitTypes d).contains c)).reverse.takeWhile
            (fun hit => !hit)).length = draws.length then n else 0))) ∧
    getAllStatTypes.length = 49 := by
  refine ⟨updateOmissionData_getElem, ?_, ?_, by decide⟩
  · intro data
    simp [collectHitTypes]
  · intro draws table i c n h
    rw [runOmission_getElem draws table i c n h, omissionCounterRun_closed]

/-- C2 witness: a two-record table run over one committed draw (3+5+8, sum 16)
resets the hit category `da` and increments the missed category `xiao`. -/
theorem c2_omission_counters_witness :
    (runOmission
      [enrichLotteryData
        { qihao := "2025001", opentime := "2025-12-10 15:30:00",
          opennum := "3+5+8", sum_value := 16, source := "s1" }]
      [("da", 4), ("xiao", 7)])[1]? = some ("xiao", 8) := by
  have := c2_omission_counters.2.2.1
    [enrichLotteryData
      { qihao := "2025001", opentime := "2025-12-10 15:30:00",
        opennum := "3+5+8", sum_value := 16, source := "s1" }]
    [("da", 4), ("xiao", 7)] 1 "xiao" 7 (by decide)
  simpa using this

/-- C4: when the draw upsert signals a P2002 unique-constraint violation, the
write path raises no error and behaves exactly as on a successful write: the
issue is marked in the seen-set, the last-issue pointer and the in-process
tracker are updated, and the `dataWritten` event is still emitted; the
duplicate never surfaces to the caller. -/
theorem c4_unique_violation_is_silent_success :
    ∀ (data : BaseLotteryData) (st : WriterState),
      st.seen.contains data.qihao = false →
      (validateLotteryData data st.lastIssue).valid = true →
      processDataWithLock data .uniqueViolation st =
        .ok (finalizeProcessing (enrichLotteryData data) st) ∧
      processDataWithLock data .uniqueViolation st = processDataWithLock data .ok st ∧
      (finalizeProcessing (enrichLotteryData data) st).seen.contains data.qihao = true ∧
      (finalizeProcessing (enrichLotteryData data) st).lastIssue = some data.qihao ∧
      (finalizeProcessing (enrichLotteryData data) st).tracker =
        updateLatestIssue st.tracker data.qihao ∧
      (finalizeProcessing (enrichLotteryData data) st).events = st.events ++ [data.qihao] := by
  intro data st hseen hvalid
  have hseen' : ¬ data.qihao ∈ st.seen := by simpa using hseen
  refine ⟨?_, ?_, ?_, rfl, rfl, rfl⟩
  · unfold processDataWithLock writeToDatabase
    simp [hseen', hvalid]
  · unfold processDataWithLock writeToDatabase
    simp [hseen', hvalid]
  · unfold finalizeProcessing
    simp [List.contains_cons, enrichLotteryData]

/-- C4 witness: a fresh state committing issue 2025001 under a P2002 outcome
yields the finalized state, not an error. -/
theorem c4_unique_violation_is_silent_success_witness :
    processDataWithLock
      { qihao := "2025001", opentime := "2025-12-10 15:30:00",
        opennum := "3+5+8", sum_value := 16, source := "s1" }
      .uniqueViolation
      { seen := [], lastIssue := none,
        tracker := { latestIssue := "0", isInitialized := true }, events := [] } =
      .ok (finalizeProcessing
        (enrichLotteryData
          { qihao := "2025001", opentime := "2025-12-10 15:30:00",
            opennum := "3+5+8", sum_value := 16, source := "s1" })
        { seen := [], lastIssue := none,
          tracker := { latestIssue := "0", isInitialized := true }, events := [] }) := by
  exact (c4_unique_violation_is_silent_success _ _ (by decide) (by decide)).1

/-- C5: `validateLotteryData` rejects every raw draw whose declared sum
differs from the digit sum of its open numbers (whichever check fires first,
the result is invalid), and accepts every draw passing the issue, numbers,
time and sum checks whatever the stored last-issue pointer — in particular
when the issue is not increasing over it, since the non-regression check
only warns; an invalid draw aborts the write path with an error before any
persistence. -/
theorem c5_sum_mismatch_rejected_nonregression_warns :
    (∀ (data : BaseLotteryData) (lastIssue : Option String) (a b c s : Int),
      parseOpennum data.opennum = some (a, b, c, s) →
      a + b + c ≠ data.sum_value →
      (validateLotteryData data lastIssue).valid = false) ∧
    (∀ (data : BaseLotteryData) (lastIssue : Option String),
      (validateIssue data.qihao).valid = true →
      (validateOpennum data.opennum).valid = true →
      (validateTime data.opentime).valid = true →
      (validateDataSum data.opennum data.sum_value).valid = true →
      validateLotteryData data lastIssue = { valid := true, error := none }) ∧
    (∀ (data : BaseLotteryData) (last : String),
      (validateIssue data.qihao).valid = true →
      (validateOpennum data.opennum).valid = true →
      (validateTime data.opentime).valid = true →
      (validateDataSum data.opennum data.sum_value).valid = true →
      isIssueIncreasing data.qihao last = false →
      (validateLotteryData data (some last)).valid = true) ∧
    (∀ (data : BaseLotteryData) (upsert : UpsertOutcome) (st : WriterState),
      st.seen.contains data.qihao = false →
      (validateLotteryData data st.lastIssue).valid = false →
      processDataWithLock data upsert st =
        .error ((validateLotteryData data st.lastIssue).error.getD "数据校验失败")) := by
  refine ⟨?_, ?_, ?_, ?_⟩
  · intro data lastIssue a b c s hparse hne
    cases hval1 : (validateIssue data.qihao).valid with
    | false => simp [validateLotteryData, hval1]
    | true =>
      cases hval2 : (validateOpennum data.opennum).valid with
      | false => simp [validateLotteryData, hval1, hval2]
      | true =>
        cases hval3 : (validateTime data.opentime).valid with
        | false => simp [validateLotteryData, hval1, hval2, hval3]
        | true =>
          have hsum : (validateDataSum data.opennum data.sum_value).valid = false := by
            unfold validateDataSum
            rw [hparse]
            simp [validateSum, hne]
          simp [validateLotteryData, hval1, hval2, hval3, hsum]
  · intro data lastIssue h1 h2 h3 h4
    unfold validateLotteryData
    simp [h1, h2, h3, h4]
  · intro data last h1 h2 h3 h4 _hnotinc
    unfold validateLotteryData
    simp [h1, h2, h3, h4]
  · intro data upsert st hseen hval
    have hseen' : ¬ data.qihao ∈ st.seen := by simpa using hseen
    unfold processDataWithLock
    simp [hseen', hval]

/-- C5 witness: the draw 3+5+8 declared with sum 15 is rejected whatever the
last-issue pointer; declared with sum 16 it is accepted even against the
larger stored last issue 2025999; and the mismatching draw makes the write
path abort with the validation error. -/
theorem c5_sum_mismatch_rejected_nonregression_warns_witness :
    (validateLotteryData
      { qihao := "2025001", opentime := "2025-12-10 15:30:00",
        opennum := "3+5+8", sum_value := 15, source := "s1" }
      (some "2025999")).valid = false ∧
    (validateLotteryData
      { qihao := "2025001", opentime := "2025-12-10 15:30:00",
        opennum := "3+5+8", sum_value := 16, source := "s1" }
      (some "2025999")).valid = true := by
  constructor
  · exact c5_sum_mismatch_rejected_nonregression_warns.1
      { qihao := "2025001", opentime := "2025-12-10 15:30:00",
        opennum := "3+5+8", sum_value := 15, source := "s1" }
      (some "2025999") 3 5 8 16 (by decide) (by decide)
  · exact c5_sum_mismatch_rejected_nonregression_warns.2.2.1
      { qihao := "2025001", opentime := "2025-12-10 15:30:00",
        opennum := "3+5+8", sum_value := 16, source := "s1" }
      "2025999" (by decide) (by decide) (by decide) (by decide) (by decide)

/-- C6, counterexample: after a failing draw-store read, `initialize()` marks
the tracker as initialized, so `isReady()` reports true — not false as the
claim states. -/
theorem c6_ready_after_failed_read_counterexample :
    isReady (initializeTracker (Except.error ())) = true := by
  rfl

/-- C6, amended: when the draw-store read fails, `initialize()` sets the
high-water mark to `"0"`, completes without raising (the model is total), and
records the tracker as initialized, so `isReady()` reports true; `is_new`
then compares against 0 and accepts exactly the issues parsing to a positive
number — unparseable issues are filtered. -/
theorem c6_initialize_fails_open_amended :
    initializeTracker (Except.error ()) =
      { latestIssue := "0", isInitialized := true } ∧
    isReady (initializeTracker (Except.error ())) = true ∧
    (∀ (qihao : String) (n : Int),
      parseIntJS qihao = some n →
      isNewIssue (initializeTracker (Except.error ())) qihao = decide (n > 0)) ∧
    (∀ qihao : String,
      parseIntJS qihao = none →
      isNewIssue (initializeTracker (Except.error ())) qihao = false) := by
  have h0 : parseIntJS "0" = some 0 := rfl
  refine ⟨rfl, rfl, ?_, ?_⟩
  · intro qihao n h
    simp [isNewIssue, initializeTracker, h0, h]
  · intro qihao h
    simp [isNewIssue, initializeTracker, h0, h]

/-- C6 witness: the tracker fallen back on `"0"` accepts the ordinary issue
2025001 — a positive number — after a failed read. -/
theorem c6_initialize_fails_open_amended_witness :
    isNewIssue (initializeTracker (Except.error ())) "2025001" = true := by
  exact (c6_initialize_fails_open_amended.2.2.1 "2025001" 2025001 (by decide)).trans
    (by decide)

/-- C8, counterexample: a first element with `drawNbr` 0 — present, with all
other fields well-formed and 20 draw numbers — is rejected by the JS
truthiness guard, so the parser returns null where the claim requires a
parsed record. -/
theorem c8_zero_draw_number_counterexample :
    parseKenoData (.arr
      [{ drawNbr := some 0, drawDate := some "Feb 8, 2026",
         drawTime := some "08:25:00 PM",
         drawNbrs := some [1, 2, 3, 4, 5, 6, 7, 8, 9, 10,
           11, 12, 13, 14, 15, 16, 17, 18, 19, 20] }]) = none := by
  decide

/-- C8, amended: for every array input whose first element carries a nonzero
`drawNbr`, nonempty `drawDate` and `drawTime` strings and a 20-element list
of keno numbers, the parser returns the reduced record — each open digit a
sum over six fixed 0-based positions mod 10, joined as `a+b+c`, with
`sum_value` their total; every other input (non-array, empty array, falsy
required field, wrong-length number list) yields null. -/
theorem c8_keno_reduction_amended :
    (∀ (n : Int) (d t : String) (nums : List Nat) (rest : List KenoDrawData),
      n ≠ 0 → d ≠ "" → t ≠ "" → nums.length = 20 →
      parseKenoData (.arr
        ({ drawNbr := some n, drawDate := some d,
           drawTime := some t, drawNbrs := some nums } :: rest)) =
        some { qihao := toString n,
               opentime := normalizeKenoTime d t,
               opennum := toString ((nums.getD 1 0 + nums.getD 4 0 + nums.getD 7 0 +
                   nums.getD 10 0 + nums.getD 13 0 + nums.getD 16 0) % 10) ++ "+" ++
                 toString ((nums.getD 2 0 + nums.getD 5 0 + nums.getD 8 0 +
                   nums.getD 11 0 + nums.getD 14 0 + nums.getD 17 0) % 10) ++ "+" ++
                 toString ((nums.getD 3 0 + nums.getD 6 0 + nums.getD 9 0 +
                   nums.getD 12 0 + nums.getD 15 0 + nums.getD 18 0) % 10),
               sum_value :=
                 (((nums.getD 1 0 + nums.getD 4 0 + nums.getD 7 0 +
                     nums.getD 10 0 + nums.getD 13 0 + nums.getD 16 0) % 10 +
                   (nums.getD 2 0 + nums.getD 5 0 + nums.getD 8 0 +
                     nums.getD 11 0 + nums.getD 14 0 + nums.getD 17 0) % 10 +
                   (nums.getD 3 0 + nums.getD 6 0 + nums.getD 9 0 +
                     nums.getD 12 0 + nums.getD 15 0 + nums.getD 18 0) % 10 : Nat) : Int),
               source := "playnow-keno" }) ∧
    parseKenoData .notArray = none ∧
    parseKenoData (.arr []) = none ∧
    (∀ (k : KenoDrawData) (rest : List KenoDrawData),
      (kenoNbrTruthy k.drawNbr && kenoStrTruthy k.drawDate &&
        kenoStrTruthy k.drawTime && k.drawNbrs.isSome) = false →
      parseKenoData (.arr (k :: rest)) = none) ∧
    (∀ (k : KenoDrawData) (rest : List KenoDrawData) (nums : List Nat),
      k.drawNbrs = some nums → nums.length ≠ 20 →
      parseKenoData (.arr (k :: rest)) = none) := by
  refine ⟨?_, rfl, rfl, ?_, ?_⟩
  · intro n d t nums rest hn hd ht hlen
    have hn' : (n != 0) = true := by simpa using hn
    have hd' : (d != "") = true := by simpa using hd
    have ht' : (t != "") = true := by simpa using ht
    have hlen' : (nums.length == 20) = true := by simpa using hlen
    simp [parseKenoData, kenoNbrTruthy, kenoStrTruthy, hn', hd', ht', hlen']
  · intro k rest h
    simp [parseKenoData, h]
  · intro k rest nums hnums hlen20
    have hlen' : (nums.length == 20) = false := by simpa using hlen20
    rcases k with ⟨nbr, date, time, nbrs⟩
    simp only at hnums
    subst hnums
    cases nbr <;> cases date <;> cases time <;>
      simp [parseKenoData, kenoNbrTruthy, kenoStrTruthy, hlen']

/-- C8 witness: a well-formed keno element with draw number 123 and numbers
1..20 reduces to `7+3+9` with sum 19. -/
theorem c8_keno_reduction_amended_witness :
    parseKenoData (.arr
      [{ drawNbr := some 123, drawDate := some "Feb 8, 2026",
         drawTime := some "08:25:00 PM",
         drawNbrs := some [1, 2, 3, 4, 5, 6, 7, 8, 9, 10,
           11, 12, 13, 14, 15, 16, 17, 18, 19, 20] }]) =
      some { qihao := "123", opentime := "2026-02-08 20:25:00",
             opennum := "7+3+9", sum_value := 19, source := "playnow-keno" } := by
  exact (c8_keno_reduction_amended.1 123 "Feb 8, 2026" "08:25:00 PM"
    [1, 2, 3, 4, 5, 6, 7, 8, 9, 10, 11, 12, 13, 14, 15, 16, 17, 18, 19, 20] []
    (by decide) (by decide) (by decide) (by decide)).trans (by decide)

end Jnd
